import Mathlib

/-!
Verification development for the study-planner web application.

The definitions below are a shallow embedding of the application code:
`app/models.py` (the data model), `app/routes.py` (the request handlers) and
`app/google_calendar.py` (the calendar sync adapter).  Machine state is kept
explicit: the relational store is a `DB` record, the acting user's row is a
`User` record, and the remote calendar service is a `CalService` record that
the handlers thread through.  Timestamps are modelled as minutes (`Int`), so
one hour is `60` and one day is `1440`.

Python semantics that matter to the claims are modelled explicitly:
an uncaught exception aborts the request with an HTTP 500 and rolls the
database session back, so a handler returning `Except.error` leaves the
store unchanged; `HttpError`s caught inside the calendar adapter surface as
`none` / `false` return values exactly as in the source.
-/

deriving instance DecidableEq for Except

namespace StudyPlanner

/-- Python runtime errors that the embedded handlers can raise. -/
inductive PyErr
  | attribute_error (ty attr : String)
  | type_error (msg : String)
  | http_error (msg : String)
deriving DecidableEq, Repr

/-- A flash message: text plus category (`success`, `danger`, `warning`, `info`). -/
abbrev Flash := String × String

/-- The outcome of a request handler, abstracted from HTTP. -/
inductive Response
  | json_ok
  | json_err (code : Nat)
  | redirect (endpoint : String)
  | render (page : String)
  | not_found
deriving DecidableEq, Repr

/-- Python `s.strip().title()`-style normalization helper: the begin of every
alphabetic run is uppercased, the rest of the run lowercased (`str.title`). -/
def py_title_aux : List Char → Bool → List Char
  | [], _ => []
  | c :: cs, prev_alpha =>
    if c.isAlpha then
      (if prev_alpha then c.toLower else c.toUpper) :: py_title_aux cs true
    else
      c :: py_title_aux cs false

/-- Python `str.title()` on an ASCII string. -/
def py_title (s : String) : String := ⟨py_title_aux s.data false⟩

/-- Python `str.strip()`: drop whitespace from both ends. -/
def py_strip (s : String) : String :=
  ⟨((s.data.dropWhile Char.isWhitespace).reverse.dropWhile
      Char.isWhitespace).reverse⟩

/-- Python `x or default` for strings: `None` and `""` are both falsy, and the
model uses `""` for a missing text. -/
def py_or (s default : String) : String := if s == "" then default else s

/-! ## Data model (`app/models.py`) -/

/-- `User` (`app/models.py` lines 7-27); only the fields the handlers read. -/
structure User where
  id : Nat
  google_token : Option String
  calendar_sync_enabled : Bool
deriving DecidableEq, Repr

/-- `Task` (`app/models.py` lines 30-48).  Note: the model has `category_id`
but no `category` string column (that column only existed in a superseded
revision, cf. `migrate_categories.py`). -/
structure Task where
  id : Nat
  title : String
  description : String
  due_date : Option Int
  category_id : Option Nat
  is_complete : Bool
  status : String
  user_id : Nat
  google_event_id : Option String
  synced_to_calendar : Bool
deriving DecidableEq, Repr

/-- A freshly constructed `Task` row with the column defaults of
`app/models.py`: `is_complete=False`, `status='todo'`,
`google_event_id=None` (nullable), `synced_to_calendar=False`. -/
def Task.new (id : Nat) (title description : String) (due_date : Option Int)
    (category_id : Option Nat) (user_id : Nat) : Task :=
  { id := id
    title := title
    description := description
    due_date := due_date
    category_id := category_id
    is_complete := false
    status := "todo"
    user_id := user_id
    google_event_id := none
    synced_to_calendar := false }

/-- `Category` (`app/models.py` lines 90-121); display-only columns omitted. -/
structure Category where
  id : Nat
  name : String
  user_id : Nat
  is_default : Bool
deriving DecidableEq, Repr

/-- `Flashcard` (`app/models.py` lines 57-71). -/
structure Flashcard where
  id : Nat
  question : String
  answer : String
  user_id : Nat
deriving DecidableEq, Repr

/-- `Summary` (`app/models.py` lines 74-88); content columns omitted. -/
structure Summary where
  id : Nat
  title : String
  user_id : Nat
deriving DecidableEq, Repr

/-- The relational store.  `next_category_id` models the primary-key sequence
that `db.session.flush()` draws from. -/
structure DB where
  tasks : List Task
  categories : List Category
  flashcards : List Flashcard
  summaries : List Summary
  next_category_id : Nat
deriving DecidableEq, Repr

/-! ## Remote calendar service (environment for `app/google_calendar.py`) -/

/-- A remote Google Calendar event.  `extra` stands for every remote field
other than summary, description and the start/end window (location,
attendees, reminders, ...), so frame conditions can be stated. -/
structure RemoteEvent where
  id : String
  summary : String
  description : String
  start_dt : Int
  end_dt : Int
  extra : List (String × String)
deriving DecidableEq, Repr

/-- The remote calendar service together with the environment's choice of
which API calls fail with an `HttpError` (transport/auth failures), and the
id the service will assign to the next inserted event. -/
structure CalService where
  events : List RemoteEvent
  next_id : String
  insert_fails : Bool
  update_fails : Bool
  delete_fails : Bool
  get_fails : Bool
  list_fails : Bool
  week_fails : Bool
  month_fails : Bool
deriving DecidableEq, Repr

/-- The `reminders` block `create_calendar_event` attaches
(`app/google_calendar.py` lines 154-159). -/
def reminders_extra : List (String × String) := [("reminders", "popup-30")]

/-- `create_calendar_event` (`app/google_calendar.py` lines 110-176): start at
the task's due date, or one day from now when there is none; the event spans
one hour; an `HttpError` from the insert is caught and surfaces as `none`. -/
def create_calendar_event (svc : CalService) (task : Task) (now : Int) :
    Option String × CalService :=
  let start_time := match task.due_date with
    | some d => d
    | none => now + 1440
  let end_time := start_time + 60
  let ev : RemoteEvent :=
    { id := svc.next_id
      summary := task.title
      description := py_or task.description "No description provided"
      start_dt := start_time
      end_dt := end_time
      extra := reminders_extra }
  if svc.insert_fails then (none, svc)
  else (some svc.next_id, { svc with events := svc.events ++ [ev] })

/-- `update_calendar_event` (`app/google_calendar.py` lines 178-245): fetch
the event, overwrite summary, description and the one-hour window (falling
back to the stored start when the task has no due date), send it back; any
`HttpError` is caught and surfaces as `false`. -/
def update_calendar_event (svc : CalService) (event_id : String) (task : Task) :
    Bool × CalService :=
  if svc.get_fails then (false, svc)
  else
    match svc.events.find? (fun e => e.id == event_id) with
    | none => (false, svc)
    | some ev =>
      let start_time := match task.due_date with
        | some d => d
        | none => ev.start_dt
      let end_time := start_time + 60
      let ev₂ := { ev with
        summary := task.title
        description := py_or task.description "No description provided"
        start_dt := start_time
        end_dt := end_time }
      if svc.update_fails then (false, svc)
      else
        let evs := svc.events.map (fun e => if e.id == event_id then ev₂ else e)
        (true, { svc with events := evs })

/-- `delete_calendar_event` (`app/google_calendar.py` lines 247-276): the
delete call raises an `HttpError` (caught, surfacing as `false`) when the
transport fails or the event is already missing; otherwise the event is
removed and `true` is returned. -/
def delete_calendar_event (svc : CalService) (event_id : String) :
    Bool × CalService :=
  if svc.delete_fails then (false, svc)
  else if svc.events.any (fun e => e.id == event_id) then
    (true, { svc with events := svc.events.filter (fun e => !(e.id == event_id)) })
  else (false, svc)

/-- Insertion step for sorting remote events by start time. -/
def insert_remote (e : RemoteEvent) : List RemoteEvent → List RemoteEvent
  | [] => [e]
  | x :: xs => if x.start_dt < e.start_dt then x :: insert_remote e xs
               else e :: x :: xs

/-- Sort remote events ascending by start time (the service's
`orderBy='startTime'`). -/
def sort_remote : List RemoteEvent → List RemoteEvent
  | [] => []
  | x :: xs => insert_remote x (sort_remote xs)

/-- `get_upcoming_events` (`app/google_calendar.py` lines 278-321): events
from now on, sorted by start time, truncated to `max_results`; an
`HttpError` is caught and surfaces as the empty list. -/
def get_upcoming_events (svc : CalService) (now : Int) (max_results : Nat) :
    List RemoteEvent :=
  if svc.list_fails then []
  else (sort_remote (svc.events.filter (fun e => decide (now ≤ e.start_dt)))).take
    max_results

/-- Modelled from the spec: `get_week_events` is imported and called by
`app/routes.py` but missing from `app/google_calendar.py`.  Per the spec's
adapter contract it fetches the week's remote events, and per its failure
semantics ("any transport or auth failure is reported to the caller") a
failure is raised to the calling handler. -/
def get_week_events (svc : CalService) (now : Int) :
    Except PyErr (List RemoteEvent) :=
  if svc.week_fails then Except.error (PyErr.http_error "week fetch failed")
  else Except.ok (svc.events.filter
    (fun e => decide (now ≤ e.start_dt) && decide (e.start_dt < now + 10080)))

/-- Modelled from the spec: `get_events_for_month` is imported and called by
`app/routes.py` but missing from `app/google_calendar.py`.  It fetches the
month's remote events for the mini calendar; a transport or auth failure is
raised to the calling handler.  (The per-day grouping is irrelevant to the
claims and omitted.) -/
def get_events_for_month (svc : CalService) : Except PyErr (List RemoteEvent) :=
  if svc.month_fails then Except.error (PyErr.http_error "month fetch failed")
  else Except.ok svc.events

/-! ## Forms (`app/forms.py`) -/

/-- The payload of `TaskForm` (`app/forms.py` lines 31-41).  `category` is a
`SelectField` whose submitted data is a plain string from the fixed choice
list; `other_category` is free text (empty when absent). -/
structure TaskFormData where
  title : String
  description : String
  due_date : Option Int
  category : String
  other_category : String
deriving DecidableEq, Repr

/-- `form.validate_on_submit()` for `TaskForm`: `DataRequired` on the title
(fails on empty/whitespace-only input) and the `SelectField` choice check on
the category. -/
def task_form_validates (f : TaskFormData) : Bool :=
  (py_strip f.title != "") &&
    ["Study", "Work", "Personal", "Other"].contains f.category

/-- Modelled from the spec: `FlashcardForm` is imported by `app/routes.py`
but missing from `app/forms.py`.  Per the spec a flashcard is a per-user
record with question and answer content, both required. -/
structure FlashcardFormData where
  question : String
  answer : String
deriving DecidableEq, Repr

/-- Modelled from the spec: validation for the missing `FlashcardForm`,
requiring a non-empty question and answer. -/
def flashcard_form_validates (f : FlashcardFormData) : Bool :=
  (py_strip f.question != "") && (py_strip f.answer != "")

/-! ## Request handlers (`app/routes.py`)

Each handler takes the store, the acting (logged-in) user's row, and — where
the source calls `get_calendar_service(current_user)` — the environment's
answer to that call as an `Option CalService` (`none` models a missing or
unusable token).  Handlers that can raise return `Except PyErr`.
-/

/-- `update_task_status` (`app/routes.py` lines 158-180): ownership check,
then status validation against `['todo', 'doing', 'done']`, then commit. -/
def update_task_status (db : DB) (user : User) (task_id : Nat)
    (status : String) : DB × Response :=
  match db.tasks.find? (fun t => t.id == task_id) with
  | none => (db, Response.not_found)
  | some task =>
    if task.user_id ≠ user.id then (db, Response.json_err 403)
    else if !(["todo", "doing", "done"].contains status) then
      (db, Response.json_err 400)
    else
      let tasks := db.tasks.map
        (fun t => if t.id == task_id then { t with status := status } else t)
      ({ db with tasks := tasks }, Response.json_ok)

/-- `add_task` (`app/routes.py` lines 182-261).  After validation the handler
reads `form.category.data`, which `app/forms.py` defines as a string
`SelectField` — but the code then accesses `.id` / `.name` on it as if it
were a `Category` object, so every validated submission raises an
`AttributeError` before `db.session.commit()` is reached; the session
(including the category flushed in STEP 2) is rolled back. -/
def add_task (db : DB) (user : User) (f : TaskFormData) :
    Except PyErr (DB × Response × List Flash) :=
  if !(task_form_validates f) then
    Except.ok (db, Response.render "add_task", [])
  else
    -- STEP 2: resolve or create the custom category in the session
    if py_strip f.other_category != "" then
      let category_name := py_title (py_strip f.other_category)
      let _session_category : Category :=
        match db.categories.find?
            (fun c => c.user_id == user.id && c.name == category_name) with
        | some c => c
        | none =>
          { id := db.next_category_id, name := category_name,
            user_id := user.id, is_default := false }
      -- STEP 5 evaluates the keyword argument `selected_category.name`;
      -- `selected_category` is the submitted dropdown string, so the
      -- attribute access raises and the request aborts (HTTP 500).
      Except.error (PyErr.attribute_error "str" "name")
    else if f.category != "" then
      -- STEP 3: `category_id = selected_category.id` on a string raises.
      Except.error (PyErr.attribute_error "str" "id")
    else
      -- (unreachable after validation) STEP 5 would pass the keyword
      -- argument `category=None`, which the `Task` model does not define.
      Except.error (PyErr.type_error "category is an invalid keyword argument")

/-- Result record for `edit_task`. -/
structure EditResult where
  db : DB
  user : User
  svc : Option CalService
  resp : Response
  flashes : List Flash
deriving DecidableEq, Repr

/-- `edit_task` (`app/routes.py` lines 263-326): ownership check; on a valid
submit the title/description/due date are written; a free-text category is
normalized to title case and reused or created per user; the dropdown-only
path accesses `.id` on the submitted string and raises; when the task is
synced and sync is enabled, `update_calendar_event` is called and its result
ignored. -/
def edit_task (db : DB) (user : User) (svc? : Option CalService)
    (task_id : Nat) (f : TaskFormData) : Except PyErr EditResult :=
  match db.tasks.find? (fun t => t.id == task_id) with
  | none => Except.ok ⟨db, user, svc?, Response.not_found, []⟩
  | some task =>
    if task.user_id ≠ user.id then
      Except.ok ⟨db, user, svc?, Response.redirect "main.tasks",
        [("You are not authorized to edit this task.", "danger")]⟩
    else if !(task_form_validates f) then
      Except.ok ⟨db, user, svc?, Response.render "edit_task", []⟩
    else
      let task₁ := { task with
        title := f.title
        description := f.description
        due_date := f.due_date }
      if py_strip f.other_category != "" then
        let category_name := py_title (py_strip f.other_category)
        let resolved : List Category × Nat × Nat :=
          match db.categories.find?
              (fun c => c.user_id == user.id && c.name == category_name) with
          | some c => (db.categories, db.next_category_id, c.id)
          | none =>
            let nc : Category :=
              { id := db.next_category_id, name := category_name,
                user_id := user.id, is_default := false }
            (db.categories ++ [nc], db.next_category_id + 1, nc.id)
        let task₂ := { task₁ with category_id := some resolved.2.2 }
        let tasks := db.tasks.map
          (fun t => if t.id == task_id then task₂ else t)
        let db₁ := { db with
          tasks := tasks
          categories := resolved.1
          next_category_id := resolved.2.1 }
        let svc₁ :=
          match user.calendar_sync_enabled, task₂.google_event_id, svc? with
          | true, some eid, some s => some (update_calendar_event s eid task₂).2
          | _, _, _ => svc?
        Except.ok ⟨db₁, user, svc₁, Response.redirect "main.tasks",
          [("Your task has been updated!", "success")]⟩
      else if f.category != "" then
        -- `task.category_id = selected_category.id` on a string raises;
        -- nothing was committed, so the session rolls back.
        Except.error (PyErr.attribute_error "str" "id")
      else
        -- (unreachable after validation) the source clears the category.
        let task₂ := { task₁ with category_id := none }
        let tasks := db.tasks.map
          (fun t => if t.id == task_id then task₂ else t)
        let db₁ := { db with tasks := tasks }
        let svc₁ :=
          match user.calendar_sync_enabled, task₂.google_event_id, svc? with
          | true, some eid, some s => some (update_calendar_event s eid task₂).2
          | _, _, _ => svc?
        Except.ok ⟨db₁, user, svc₁, Response.redirect "main.tasks",
          [("Your task has been updated!", "success")]⟩

/-- One observable action of `delete_task`, used to state ordering. -/
inductive CalAction
  | remote_delete (event_id : String)
  | local_delete (task_id : Nat)
deriving DecidableEq, Repr

/-- Result record for `delete_task`. -/
structure DeleteResult where
  db : DB
  svc : Option CalService
  trace : List CalAction
  resp : Response
  flashes : List Flash
deriving DecidableEq, Repr

/-- `delete_task` (`app/routes.py` lines 329-348): ownership check; when the
task has a remote event id and sync is enabled, the service is obtained and
— if that succeeds — `delete_calendar_event` is called (result ignored);
the local row is then deleted unconditionally. -/
def delete_task (db : DB) (user : User) (svc? : Option CalService)
    (task_id : Nat) : DeleteResult :=
  match db.tasks.find? (fun t => t.id == task_id) with
  | none => ⟨db, svc?, [], Response.not_found, []⟩
  | some task =>
    if task.user_id ≠ user.id then
      ⟨db, svc?, [], Response.redirect "main.tasks",
        [("You are not authorized to delete this task.", "danger")]⟩
    else
      let remote : Option CalService × List CalAction :=
        match task.google_event_id, user.calendar_sync_enabled, svc? with
        | some eid, true, some s =>
          (some (delete_calendar_event s eid).2, [CalAction.remote_delete eid])
        | _, _, _ => (svc?, [])
      let tasks := db.tasks.filter (fun t => !(t.id == task_id))
      ⟨{ db with tasks := tasks }, remote.1,
        remote.2 ++ [CalAction.local_delete task_id],
        Response.redirect "main.tasks",
        [("Your task has been deleted!", "success")]⟩

/-- `complete_task` (`app/routes.py` lines 351-363): ownership check, then
the completion flag is toggled. -/
def complete_task (db : DB) (user : User) (task_id : Nat) :
    DB × Response × List Flash :=
  match db.tasks.find? (fun t => t.id == task_id) with
  | none => (db, Response.not_found, [])
  | some task =>
    if task.user_id ≠ user.id then
      (db, Response.redirect "main.tasks",
        [("You are not authorized to complete this task.", "danger")])
    else
      let tasks := db.tasks.map (fun t =>
        if t.id == task_id then { t with is_complete := !t.is_complete } else t)
      ({ db with tasks := tasks }, Response.redirect "main.tasks",
        [("Task status updated!", "success")])

/-- `edit_flashcard` (`app/routes.py` lines 421-442): ownership check
(`flashcard.author != current_user`), then question/answer are written. -/
def edit_flashcard (db : DB) (user : User) (flashcard_id : Nat)
    (f : FlashcardFormData) : DB × Response × List Flash :=
  match db.flashcards.find? (fun c => c.id == flashcard_id) with
  | none => (db, Response.not_found, [])
  | some card =>
    if card.user_id ≠ user.id then
      (db, Response.redirect "main.flashcards",
        [("You are not authorized to edit this flashcard.", "danger")])
    else if flashcard_form_validates f then
      let cards := db.flashcards.map (fun c =>
        if c.id == flashcard_id then
          { c with question := f.question, answer := f.answer }
        else c)
      ({ db with flashcards := cards }, Response.redirect "main.flashcards",
        [("Your flashcard has been updated!", "success")])
    else (db, Response.render "edit_flashcards", [])

/-- `delete_flashcard` (`app/routes.py` lines 445-457). -/
def delete_flashcard (db : DB) (user : User) (flashcard_id : Nat) :
    DB × Response × List Flash :=
  match db.flashcards.find? (fun c => c.id == flashcard_id) with
  | none => (db, Response.not_found, [])
  | some card =>
    if card.user_id ≠ user.id then
      (db, Response.redirect "main.flashcards",
        [("You are not authorized to delete this flashcard.", "danger")])
    else
      let cards := db.flashcards.filter (fun c => !(c.id == flashcard_id))
      ({ db with flashcards := cards }, Response.redirect "main.flashcards",
        [("Your flashcard has been deleted!", "success")])

/-- `view_summary` (`app/routes.py` lines 981-994): ownership check before
rendering; nothing is ever written. -/
def view_summary (db : DB) (user : User) (summary_id : Nat) :
    DB × Response × List Flash :=
  match db.summaries.find? (fun s => s.id == summary_id) with
  | none => (db, Response.not_found, [])
  | some s =>
    if s.user_id ≠ user.id then
      (db, Response.redirect "main.summarizer",
        [("You are not authorized to view this summary.", "danger")])
    else (db, Response.render "view_summary", [])

/-- `delete_summary` (`app/routes.py` lines 997-1011). -/
def delete_summary (db : DB) (user : User) (summary_id : Nat) :
    DB × Response × List Flash :=
  match db.summaries.find? (fun s => s.id == summary_id) with
  | none => (db, Response.not_found, [])
  | some s =>
    if s.user_id ≠ user.id then
      (db, Response.redirect "main.summarizer",
        [("You are not authorized to delete this summary.", "danger")])
    else
      let sums := db.summaries.filter (fun x => !(x.id == summary_id))
      ({ db with summaries := sums }, Response.redirect "main.summarizer",
        [("Summary deleted successfully!", "success")])

/-- `sync_task_to_calendar` (`app/routes.py` lines 728-779): ownership check,
sync-enabled check, service check; an already-synced task gets a remote
update, an unsynced one gets a remote create whose returned id is stored on
the task together with the sync flag. -/
def sync_task_to_calendar (db : DB) (user : User) (svc? : Option CalService)
    (task_id : Nat) (now : Int) : DB × Option CalService × Response :=
  match db.tasks.find? (fun t => t.id == task_id) with
  | none => (db, svc?, Response.not_found)
  | some task =>
    if task.user_id ≠ user.id then (db, svc?, Response.json_err 403)
    else if !user.calendar_sync_enabled then (db, svc?, Response.json_err 400)
    else
      match svc? with
      | none => (db, none, Response.json_err 500)
      | some svc =>
        match task.google_event_id with
        | some eid =>
          let res := update_calendar_event svc eid task
          if res.1 then (db, some res.2, Response.json_ok)
          else (db, some res.2, Response.json_err 500)
        | none =>
          match create_calendar_event svc task now with
          | (some eid, svc₂) =>
            let tasks := db.tasks.map (fun t =>
              if t.id == task_id then
                { t with google_event_id := some eid, synced_to_calendar := true }
              else t)
            ({ db with tasks := tasks }, some svc₂, Response.json_ok)
          | (none, svc₂) => (db, some svc₂, Response.json_err 500)

/-- `remove_task_from_calendar` (`app/routes.py` lines 781-812): ownership
check, synced check, service check; on a successful remote delete the event
id and the sync flag are cleared together. -/
def remove_task_from_calendar (db : DB) (user : User)
    (svc? : Option CalService) (task_id : Nat) :
    DB × Option CalService × Response :=
  match db.tasks.find? (fun t => t.id == task_id) with
  | none => (db, svc?, Response.not_found)
  | some task =>
    if task.user_id ≠ user.id then (db, svc?, Response.json_err 403)
    else
      match task.google_event_id with
      | none => (db, svc?, Response.json_err 400)
      | some eid =>
        match svc? with
        | none => (db, none, Response.json_err 500)
        | some svc =>
          let res := delete_calendar_event svc eid
          if res.1 then
            let tasks := db.tasks.map (fun t =>
              if t.id == task_id then
                { t with google_event_id := none, synced_to_calendar := false }
              else t)
            ({ db with tasks := tasks }, some res.2, Response.json_ok)
          else (db, some res.2, Response.json_err 500)

/-! ## The schedule view (`app/routes.py` lines 521-656)

The upcoming-events list mixes raw Google event dictionaries, whose
`'start'` value is a nested dictionary, with locally built task entries,
whose `'start'` value is an ISO string.  `PyEvent.start` records that value
shape, because Python's `list.sort` raises `TypeError` as soon as it
compares two keys that are not both strings. -/

/-- The Python value found under the `'start'` key of an upcoming entry:
a nested dictionary for raw Google events, a plain string for task rows. -/
inductive StartVal
  | obj (date_time : String)
  | text (s : String)
deriving DecidableEq, Repr

/-- An entry of the `upcoming_events` list; display-only keys omitted. -/
structure PyEvent where
  id : String
  start : StartVal
deriving DecidableEq, Repr

/-- Stand-in for `datetime.isoformat()` on model timestamps. -/
def iso_min (t : Int) : String := toString t

/-- A raw Google event as it sits in `upcoming_events`. -/
def remote_to_py (e : RemoteEvent) : PyEvent :=
  { id := e.id, start := StartVal.obj (iso_min e.start_dt) }

/-- A local task converted to event format (`app/routes.py` lines 596-608):
the id is namespaced with `task_` and `'start'` is an ISO string. -/
def task_to_py (t : Task) : PyEvent :=
  { id := "task_" ++ toString t.id,
    start := StartVal.text (iso_min (t.due_date.getD 0)) }

/-- Whether the `'start'` value is a string (hence comparable by `<`). -/
def start_is_text : StartVal → Bool
  | StartVal.obj _ => false
  | StartVal.text _ => true

/-- The sort key used when all `'start'` values are strings. -/
def start_key : PyEvent → String
  | e => match e.start with
    | StartVal.obj s => s
    | StartVal.text s => s

/-- Insertion step for sorting entries by their string `'start'` key. -/
def insert_py (e : PyEvent) : List PyEvent → List PyEvent
  | [] => [e]
  | x :: xs => if start_key x < start_key e then x :: insert_py e xs
               else e :: x :: xs

/-- Insertion sort of entries by their string `'start'` key. -/
def sort_py : List PyEvent → List PyEvent
  | [] => []
  | x :: xs => insert_py x (sort_py xs)

/-- `upcoming_events.sort(key=lambda x: x['start'])` (`app/routes.py` line
611).  Python's sort compares the keys pairwise with `<`; with two or more
entries every entry is compared at least once, so any non-string `'start'`
value (a dictionary) raises `TypeError`. -/
def py_sort_events (evs : List PyEvent) : Except PyErr (List PyEvent) :=
  if evs.length ≤ 1 then Except.ok evs
  else if evs.all (fun e => start_is_text e.start) then Except.ok (sort_py evs)
  else Except.error (PyErr.type_error "unorderable start values")

/-- Result record for the `schedule` view. -/
structure ScheduleResult where
  db : DB
  user : User
  connected : Bool
  upcoming : List PyEvent
  flashes : List Flash
deriving DecidableEq, Repr

/-- `schedule` (`app/routes.py` lines 521-656), restricted to the state it
can change and the upcoming list it presents.  When sync is enabled and a
service is obtained, the week/month/upcoming fetches run inside `try`; an
exception raised there clears the user's token and sync flag, flashes a
warning, and leaves `upcoming_events` empty.  Google events matching a
local task's `google_event_id` are filtered out, local tasks due within 7
days are appended, and the combined list is sorted by its `'start'` key. -/
def schedule (db : DB) (user : User) (svc? : Option CalService) (now : Int) :
    Except PyErr ScheduleResult :=
  let tasks := db.tasks.filter (fun t => t.user_id == user.id)
  let base : User × Bool × List PyEvent × List Flash :=
    if user.calendar_sync_enabled then
      match svc? with
      | none => (user, false, [], [])
      | some svc =>
        match get_week_events svc now with
        | Except.error _ =>
          ({ user with google_token := none, calendar_sync_enabled := false },
            false, [],
            [("Your Google Calendar connection has expired. Please reconnect.",
              "warning")])
        | Except.ok _ =>
          match get_events_for_month svc with
          | Except.error _ =>
            ({ user with google_token := none, calendar_sync_enabled := false },
              false, [],
              [("Your Google Calendar connection has expired. Please reconnect.",
                "warning")])
          | Except.ok _ =>
            let upcoming_raw := get_upcoming_events svc now 20
            let synced_ids := tasks.filterMap (fun t => t.google_event_id)
            let upcoming := (upcoming_raw.filter
              (fun e => !(synced_ids.contains e.id))).map remote_to_py
            (user, true, upcoming, [])
    else (user, false, [], [])
  -- 7 days (timedelta(days=7)) in minutes
  let week_from_now := now + 10080
  let upcoming_tasks := tasks.filter (fun t =>
    match t.due_date with
    | some d => decide (now ≤ d) && decide (d ≤ week_from_now)
    | none => false)
  let all_upcoming := base.2.2.1 ++ upcoming_tasks.map task_to_py
  match py_sort_events all_upcoming with
  | Except.error e => Except.error e
  | Except.ok sorted =>
    Except.ok ⟨db, base.1, base.2.1, sorted, base.2.2.2⟩

/-- The implicit sync invariant of claim C10: the sync flag is set exactly
when a remote event id is stored. -/
def sync_inv (t : Task) : Prop :=
  t.synced_to_calendar = t.google_event_id.isSome

instance (t : Task) : Decidable (sync_inv t) := by
  unfold sync_inv; infer_instance

/-- C10's invariant lifted to the store: every task row satisfies it. -/
def db_sync_inv (db : DB) : Prop := ∀ t ∈ db.tasks, sync_inv t

instance (db : DB) : Decidable (db_sync_inv db) :=
  List.decidableBAll _ _

/-! ### Projections on handler results (used to state success without
existential binders) -/

/-- The acting user's row after a successful `edit_task`. -/
def edit_ok_user : Except PyErr EditResult → Option User
  | Except.ok r => some r.user
  | Except.error _ => none

/-- The flashes of a successful `edit_task`. -/
def edit_ok_flashes : Except PyErr EditResult → Option (List Flash)
  | Except.ok r => some r.flashes
  | Except.error _ => none

/-- The acting user's row after a successful `schedule` request. -/
def sched_ok_user : Except PyErr ScheduleResult → Option User
  | Except.ok r => some r.user
  | Except.error _ => none

/-- The connected flag of a successful `schedule` request. -/
def sched_ok_connected : Except PyErr ScheduleResult → Option Bool
  | Except.ok r => some r.connected
  | Except.error _ => none

/-- The flashes of a successful `schedule` request. -/
def sched_ok_flashes : Except PyErr ScheduleResult → Option (List Flash)
  | Except.ok r => some r.flashes
  | Except.error _ => none

/-! ### Concrete fixtures used by the per-claim witnesses and
counterexamples -/

/-- C1 fixture: the acting user. -/
def user_c1 : User := ⟨1, none, false⟩

/-- C1 fixture: a task owned by a different user (id 2). -/
def task_c1x : Task :=
  { id := 7, title := "T", description := "", due_date := none,
    category_id := none, is_complete := false, status := "todo",
    user_id := 2, google_event_id := none, synced_to_calendar := false }

/-- C1 fixture: a flashcard owned by a different user. -/
def card_c1 : Flashcard := ⟨4, "Q", "A", 2⟩

/-- C1 fixture: a summary owned by a different user. -/
def sum_c1 : Summary := ⟨5, "S", 2⟩

/-- C1 fixture: the store. -/
def db_c1 : DB := ⟨[task_c1x], [], [card_c1], [sum_c1], 1⟩

/-- C1 fixture: a valid task form. -/
def form_c1 : TaskFormData := ⟨"T", "", none, "Study", ""⟩

/-- C1 fixture: a valid flashcard form. -/
def fform_c1 : FlashcardFormData := ⟨"Q2", "A2"⟩

/-- C2 fixture: the acting user. -/
def user_c2 : User := ⟨1, none, false⟩

/-- C2 fixture: an empty store. -/
def db_c2 : DB := ⟨[], [], [], [], 1⟩

/-- C2 fixture: a valid form with a free-text category (padded, lowercase,
to exercise the strip-and-title normalization). -/
def form_c2 : TaskFormData := ⟨"Read", "", none, "Other", " exam prep "⟩

/-- C3 fixture: the acting user. -/
def user_c3 : User := ⟨1, none, false⟩

/-- C3 fixture: a task owned by the acting user. -/
def task_c3 : Task :=
  { id := 1, title := "T", description := "", due_date := none,
    category_id := none, is_complete := false, status := "todo",
    user_id := 1, google_event_id := none, synced_to_calendar := false }

/-- C3 fixture: the store. -/
def db_c3 : DB := ⟨[task_c3], [], [], [], 1⟩

/-- C4 fixture: the acting user, calendar sync enabled. -/
def user_c4 : User := ⟨1, some "tok", true⟩

/-- C4 fixture: an owned task synced to a remote event. -/
def task_c4 : Task :=
  { id := 1, title := "T", description := "", due_date := some 100,
    category_id := none, is_complete := false, status := "todo",
    user_id := 1, google_event_id := some "evt1", synced_to_calendar := true }

/-- C4 fixture: the store. -/
def db_c4 : DB := ⟨[task_c4], [], [], [], 1⟩

/-- C4 fixture: a working calendar service holding the task's event. -/
def svc_c4 : CalService :=
  ⟨[⟨"evt1", "T", "", 100, 160, []⟩], "n1",
    false, false, false, false, false, false, false⟩

/-- C5 fixture: a working calendar service. -/
def svc_c5 : CalService :=
  ⟨[], "gid1", false, false, false, false, false, false, false⟩

/-- C5 fixture: a task with a due date. -/
def task_c5 : Task :=
  { id := 1, title := "Essay", description := "", due_date := some 300,
    category_id := none, is_complete := false, status := "todo",
    user_id := 1, google_event_id := none, synced_to_calendar := false }

/-- C5 fixture: a task without a due date. -/
def task_c5n : Task := { task_c5 with id := 2, due_date := none }

/-- C6 fixture: the stored remote event (note its description and its
`extra` fields). -/
def ev_c6 : RemoteEvent :=
  ⟨"e1", "Old title", "orig-notes", 100, 160, [("location", "Library")]⟩

/-- C6 fixture: a calendar service holding that event. -/
def svc_c6 : CalService :=
  ⟨[ev_c6], "n1", false, false, false, false, false, false, false⟩

/-- C6 fixture: the updated local task synced to that event. -/
def task_c6 : Task :=
  { id := 2, title := "New title", description := "new notes",
    due_date := some 500, category_id := none, is_complete := false,
    status := "todo", user_id := 1, google_event_id := some "e1",
    synced_to_calendar := true }

/-- C7 fixture: the acting user. -/
def user_c7 : User := ⟨1, none, false⟩

/-- C7 fixture: an empty store. -/
def db_c7 : DB := ⟨[], [], [], [], 1⟩

/-- C7 fixture: a valid form using only the dropdown category. -/
def form_c7 : TaskFormData := ⟨"Essay", "", none, "Study", ""⟩

/-- C8 fixture: the acting user, calendar sync enabled. -/
def user_c8 : User := ⟨1, some "tok", true⟩

/-- C8 fixture: an owned, synced task. -/
def task_c8 : Task :=
  { id := 3, title := "T", description := "", due_date := some 200,
    category_id := none, is_complete := false, status := "todo",
    user_id := 1, google_event_id := some "e3", synced_to_calendar := true }

/-- C8 fixture: the store. -/
def db_c8 : DB := ⟨[task_c8], [], [], [], 1⟩

/-- C8 fixture: a calendar service whose update call fails. -/
def svc_c8 : CalService :=
  ⟨[⟨"e3", "T", "", 100, 160, []⟩], "n1",
    false, true, false, false, false, false, false⟩

/-- C8 fixture: a valid edit form with a free-text category. -/
def form_c8 : TaskFormData := ⟨"T2", "", some 200, "Other", "Revision"⟩

/-- C8 fixture: the task row as rewritten by the fixture edit. -/
def c8_expected_task : Task :=
  { task_c8 with
    title := "T2"
    description := ""
    due_date := some 200
    category_id := some 1 }

/-- C8 fixture: the result `edit_task` produces on the fixture inputs. -/
def c8_expected : EditResult :=
  { db := ⟨[c8_expected_task], [⟨1, "Revision", 1, false⟩], [], [], 2⟩
    user := user_c8
    svc := some svc_c8
    resp := Response.redirect "main.tasks"
    flashes := [("Your task has been updated!", "success")] }

/-- C8 fixture: a calendar service whose week fetch raises. -/
def svc_c8w : CalService :=
  ⟨[], "n1", false, false, false, false, false, true, false⟩

/-- C9 fixture: the acting user, calendar sync enabled. -/
def user_c9 : User := ⟨1, some "tok", true⟩

/-- C9 fixture: an owned local task due within the next 7 days, not synced
to any remote event. -/
def task_c9 : Task :=
  { id := 1, title := "Local", description := "", due_date := some 100,
    category_id := none, is_complete := false, status := "todo",
    user_id := 1, google_event_id := none, synced_to_calendar := false }

/-- C9 fixture: the store. -/
def db_c9 : DB := ⟨[task_c9], [], [], [], 1⟩

/-- C9 fixture: one upcoming remote event, unrelated to any local task. -/
def ev_c9 : RemoteEvent := ⟨"abc123", "Remote", "", 500, 560, []⟩

/-- C9 fixture: a working calendar service holding that event. -/
def svc_c9 : CalService :=
  ⟨[ev_c9], "n1", false, false, false, false, false, false, false⟩

/-- C10 fixture: the acting user, calendar sync enabled. -/
def user_c10 : User := ⟨1, some "tok", true⟩

/-- C10 fixture: an owned, unsynced task (flag and event id both unset). -/
def task_c10 : Task :=
  { id := 1, title := "T", description := "", due_date := some 100,
    category_id := none, is_complete := false, status := "todo",
    user_id := 1, google_event_id := none, synced_to_calendar := false }

/-- C10 fixture: the store. -/
def db_c10 : DB := ⟨[task_c10], [], [], [], 1⟩

/-- C10 fixture: a working calendar service. -/
def svc_c10 : CalService :=
  ⟨[], "gid9", false, false, false, false, false, false, false⟩

/-! ## Helper lemmas -/

theorem find?_map_ite {α : Type} (p : α → Bool) (g : α → α) (a : α)
    (l : List α) (h : l.find? p = some a) (hg : p (g a) = true) :
    (l.map (fun x => if p x then g x else x)).find? p = some (g a) := by
  induction l with
  | nil => simp at h
  | cons b l ih =>
    by_cases hp : p b = true
    · rw [List.find?_cons_of_pos _ hp] at h
      have hb : b = a := by injection h
      subst hb
      rw [List.map_cons, if_pos hp]
      exact List.find?_cons_of_pos _ hg
    · have hp' : ¬ (p b = true) := hp
      rw [List.find?_cons_of_neg _ hp'] at h
      rw [List.map_cons, if_neg hp', List.find?_cons_of_neg _ hp']
      exact ih h

theorem mem_map_ite {α : Type} (p : α → Bool) (g : α → α) (P : α → Prop)
    (l : List α) (h : ∀ t ∈ l, P t) (hg : ∀ t ∈ l, P (g t)) :
    ∀ t ∈ l.map (fun x => if p x then g x else x), P t := by
  intro t ht
  rcases List.mem_map.1 ht with ⟨x, hx, rfl⟩
  by_cases hp : p x = true
  · rw [if_pos hp]; exact hg x hx
  · rw [if_neg hp]; exact h x hx

theorem mem_filter_pred {α : Type} (q : α → Bool) (P : α → Prop) (l : List α)
    (h : ∀ t ∈ l, P t) : ∀ t ∈ l.filter q, P t := by
  intro t ht
  exact h t (List.mem_filter.1 ht).1

theorem all_text_task_events (l : List Task) :
    (l.map task_to_py).all (fun e => start_is_text e.start) = true := by
  induction l with
  | nil => rfl
  | cons t l ih => simp [List.all_cons, task_to_py, start_is_text, ih]

theorem py_sort_events_ok (l : List PyEvent)
    (h : l.all (fun e => start_is_text e.start) = true) :
    py_sort_events l = Except.ok (if l.length ≤ 1 then l else sort_py l) := by
  unfold py_sort_events
  by_cases hl : l.length ≤ 1
  · rw [if_pos hl, if_pos hl]
  · rw [if_neg hl, if_neg hl, if_pos h]

/-! ## Claim theorems -/

/-- Claim C3: for a status-update request on a task owned by the acting
user, a status in `{todo, doing, done}` is written and the request
succeeds; any other status is rejected with an error and the store is left
unchanged. -/
theorem c3_update_task_status :
    ∀ (db : DB) (user : User) (task_id : Nat) (status : String) (task : Task),
      db.tasks.find? (fun t => t.id == task_id) = some task →
      task.user_id = user.id →
      ((["todo", "doing", "done"].contains status = true →
          update_task_status db user task_id status =
            ({ db with tasks := db.tasks.map (fun t =>
                if t.id == task_id then { t with status := status } else t) },
              Response.json_ok) ∧
          (update_task_status db user task_id status).1.tasks.find?
              (fun t => t.id == task_id) = some { task with status := status }) ∧
        (["todo", "doing", "done"].contains status = false →
          update_task_status db user task_id status =
            (db, Response.json_err 400))) := by
  intro db user task_id status task hfind hown
  have hne : ¬ (task.user_id ≠ user.id) := by simp [hown]
  have hg : (fun t => t.id == task_id) { task with status := status } = true := by
    simpa using List.find?_some hfind
  constructor
  · intro hc
    have hcond : (!(["todo", "doing", "done"].contains status)) = false := by
      rw [hc]; rfl
    have hmain : update_task_status db user task_id status =
        ({ db with tasks := db.tasks.map (fun t =>
            if t.id == task_id then { t with status := status } else t) },
          Response.json_ok) := by
      simp only [update_task_status, hfind]
      rw [if_neg hne, hcond]
      rfl
    refine ⟨hmain, ?_⟩
    rw [hmain]
    exact find?_map_ite (fun t => t.id == task_id)
      (fun t => { t with status := status }) task db.tasks hfind hg
  · intro hc
    have hcond : (!(["todo", "doing", "done"].contains status)) = true := by
      rw [hc]; rfl
    simp only [update_task_status, hfind]
    rw [if_neg hne, hcond]
    rfl

/-- Claim C3 witness: both branches at concrete inputs. -/
theorem c3_update_task_status_witness :
    update_task_status db_c3 user_c3 1 "doing" =
      ({ db_c3 with tasks := db_c3.tasks.map (fun t =>
          if t.id == 1 then { t with status := "doing" } else t) },
        Response.json_ok) ∧
    update_task_status db_c3 user_c3 1 "bogus" =
      (db_c3, Response.json_err 400) := by
  have h1 := c3_update_task_status db_c3 user_c3 1 "doing" task_c3
    (by decide) (by decide)
  have h2 := c3_update_task_status db_c3 user_c3 1 "bogus" task_c3
    (by decide) (by decide)
  exact ⟨(h1.1 (by decide)).1, h2.2 (by decide)⟩

/-- Claim C1: every handler that reads or mutates a Task, Flashcard or
Summary row by id rejects a request from a non-owner (403 JSON or a
redirect with a danger flash) and leaves the store unchanged. -/
theorem c1_ownership_guard :
    (∀ (db : DB) (user : User) (task_id : Nat) (status : String) (task : Task),
        db.tasks.find? (fun t => t.id == task_id) = some task →
        task.user_id ≠ user.id →
        update_task_status db user task_id status = (db, Response.json_err 403)) ∧
    (∀ (db : DB) (user : User) (svc? : Option CalService) (task_id : Nat)
        (f : TaskFormData) (task : Task),
        db.tasks.find? (fun t => t.id == task_id) = some task →
        task.user_id ≠ user.id →
        edit_task db user svc? task_id f =
          Except.ok ⟨db, user, svc?, Response.redirect "main.tasks",
            [("You are not authorized to edit this task.", "danger")]⟩) ∧
    (∀ (db : DB) (user : User) (svc? : Option CalService) (task_id : Nat)
        (task : Task),
        db.tasks.find? (fun t => t.id == task_id) = some task →
        task.user_id ≠ user.id →
        delete_task db user svc? task_id =
          ⟨db, svc?, [], Response.redirect "main.tasks",
            [("You are not authorized to delete this task.", "danger")]⟩) ∧
    (∀ (db : DB) (user : User) (task_id : Nat) (task : Task),
        db.tasks.find? (fun t => t.id == task_id) = some task →
        task.user_id ≠ user.id →
        complete_task db user task_id =
          (db, Response.redirect "main.tasks",
            [("You are not authorized to complete this task.", "danger")])) ∧
    (∀ (db : DB) (user : User) (svc? : Option CalService) (task_id : Nat)
        (now : Int) (task : Task),
        db.tasks.find? (fun t => t.id == task_id) = some task →
        task.user_id ≠ user.id →
        sync_task_to_calendar db user svc? task_id now =
          (db, svc?, Response.json_err 403)) ∧
    (∀ (db : DB) (user : User) (svc? : Option CalService) (task_id : Nat)
        (task : Task),
        db.tasks.find? (fun t => t.id == task_id) = some task →
        task.user_id ≠ user.id →
        remove_task_from_calendar db user svc? task_id =
          (db, svc?, Response.json_err 403)) ∧
    (∀ (db : DB) (user : User) (flashcard_id : Nat) (f : FlashcardFormData)
        (card : Flashcard),
        db.flashcards.find? (fun c => c.id == flashcard_id) = some card →
        card.user_id ≠ user.id →
        edit_flashcard db user flashcard_id f =
          (db, Response.redirect "main.flashcards",
            [("You are not authorized to edit this flashcard.", "danger")])) ∧
    (∀ (db : DB) (user : User) (flashcard_id : Nat) (card : Flashcard),
        db.flashcards.find? (fun c => c.id == flashcard_id) = some card →
        card.user_id ≠ user.id →
        delete_flashcard db user flashcard_id =
          (db, Response.redirect "main.flashcards",
            [("You are not authorized to delete this flashcard.", "danger")])) ∧
    (∀ (db : DB) (user : User) (summary_id : Nat) (s : Summary),
        db.summaries.find? (fun x => x.id == summary_id) = some s →
        s.user_id ≠ user.id →
        view_summary db user summary_id =
          (db, Response.redirect "main.summarizer",
            [("You are not authorized to view this summary.", "danger")])) ∧
    (∀ (db : DB) (user : User) (summary_id : Nat) (s : Summary),
        db.summaries.find? (fun x => x.id == summary_id) = some s →
        s.user_id ≠ user.id →
        delete_summary db user summary_id =
          (db, Response.redirect "main.summarizer",
            [("You are not authorized to delete this summary.", "danger")])) := by
  refine ⟨?_, ?_, ?_, ?_, ?_, ?_, ?_, ?_, ?_, ?_⟩
  · intro db user task_id status task hfind hne
    simp [update_task_status, hfind, hne]
  · intro db user svc? task_id f task hfind hne
    simp [edit_task, hfind, hne]
  · intro db user svc? task_id task hfind hne
    simp [delete_task, hfind, hne]
  · intro db user task_id task hfind hne
    simp [complete_task, hfind, hne]
  · intro db user svc? task_id now task hfind hne
    simp [sync_task_to_calendar, hfind, hne]
  · intro db user svc? task_id task hfind hne
    simp [remove_task_from_calendar, hfind, hne]
  · intro db user flashcard_id f card hfind hne
    simp [edit_flashcard, hfind, hne]
  · intro db user flashcard_id card hfind hne
    simp [delete_flashcard, hfind, hne]
  · intro db user summary_id s hfind hne
    simp [view_summary, hfind, hne]
  · intro db user summary_id s hfind hne
    simp [delete_summary, hfind, hne]

/-- Claim C1 witness: every guard fires at a concrete store in which a task,
a flashcard and a summary belong to user 2 while user 1 acts. -/
theorem c1_ownership_guard_witness :
    update_task_status db_c1 user_c1 7 "done" = (db_c1, Response.json_err 403) ∧
    edit_task db_c1 user_c1 none 7 form_c1 =
      Except.ok ⟨db_c1, user_c1, none, Response.redirect "main.tasks",
        [("You are not authorized to edit this task.", "danger")]⟩ ∧
    delete_task db_c1 user_c1 none 7 =
      ⟨db_c1, none, [], Response.redirect "main.tasks",
        [("You are not authorized to delete this task.", "danger")]⟩ ∧
    complete_task db_c1 user_c1 7 =
      (db_c1, Response.redirect "main.tasks",
        [("You are not authorized to complete this task.", "danger")]) ∧
    sync_task_to_calendar db_c1 user_c1 none 7 0 =
      (db_c1, none, Response.json_err 403) ∧
    remove_task_from_calendar db_c1 user_c1 none 7 =
      (db_c1, none, Response.json_err 403) ∧
    edit_flashcard db_c1 user_c1 4 fform_c1 =
      (db_c1, Response.redirect "main.flashcards",
        [("You are not authorized to edit this flashcard.", "danger")]) ∧
    delete_flashcard db_c1 user_c1 4 =
      (db_c1, Response.redirect "main.flashcards",
        [("You are not authorized to delete this flashcard.", "danger")]) ∧
    view_summary db_c1 user_c1 5 =
      (db_c1, Response.redirect "main.summarizer",
        [("You are not authorized to view this summary.", "danger")]) ∧
    delete_summary db_c1 user_c1 5 =
      (db_c1, Response.redirect "main.summarizer",
        [("You are not authorized to delete this summary.", "danger")]) := by
  obtain ⟨h1, h2, h3, h4, h5, h6, h7, h8, h9, h10⟩ := c1_ownership_guard
  exact ⟨h1 db_c1 user_c1 7 "done" task_c1x (by decide) (by decide),
    h2 db_c1 user_c1 none 7 form_c1 task_c1x (by decide) (by decide),
    h3 db_c1 user_c1 none 7 task_c1x (by decide) (by decide),
    h4 db_c1 user_c1 7 task_c1x (by decide) (by decide),
    h5 db_c1 user_c1 none 7 0 task_c1x (by decide) (by decide),
    h6 db_c1 user_c1 none 7 task_c1x (by decide) (by decide),
    h7 db_c1 user_c1 4 fform_c1 card_c1 (by decide) (by decide),
    h8 db_c1 user_c1 4 card_c1 (by decide) (by decide),
    h9 db_c1 user_c1 5 sum_c1 (by decide) (by decide),
    h10 db_c1 user_c1 5 sum_c1 (by decide) (by decide)⟩

/-- Claim C2 (code bug, failing input): a validated `add_task` submission
with the free-text category `" exam prep "` normalizes the name to
`"Exam Prep"`, but then raises `AttributeError` while evaluating
`selected_category.name` on the dropdown string, so the request aborts and
no `Category` row is persisted. -/
theorem c2_add_task_custom_category_crash :
    task_form_validates form_c2 = true ∧
    py_title (py_strip form_c2.other_category) = "Exam Prep" ∧
    add_task db_c2 user_c2 form_c2 =
      Except.error (PyErr.attribute_error "str" "name") := by decide

/-- Claim C7 (code bug, failing input): a validated `add_task` submission
with only a dropdown category raises `AttributeError` while evaluating
`selected_category.id` on the submitted string, so no `Task` row is ever
created. -/
theorem c7_add_task_dropdown_crash :
    task_form_validates form_c7 = true ∧
    add_task db_c7 user_c7 form_c7 =
      Except.error (PyErr.attribute_error "str" "id") := by decide

/-- Claim C9 (code bug, failing input): with one upcoming remote event and
one local task due within 7 days, the `schedule` view's final
`upcoming_events.sort` compares a dictionary `'start'` key against a string
one and raises `TypeError`, so no merged list is ever presented. -/
theorem c9_schedule_sort_crash :
    user_c9.calendar_sync_enabled = true ∧
    task_c9.due_date = some 100 ∧
    task_c9.google_event_id = none ∧
    schedule db_c9 user_c9 (some svc_c9) 0 =
      Except.error (PyErr.type_error "unorderable start values") := by decide

/-- Claim C4 counterexample: an owned task with a remote event id and sync
enabled, but `get_calendar_service` fails (`none`), so the recorded trace
contains no remote deletion at all even though the claim asserts one is
attempted — while the local row is still deleted. -/
theorem c4_counterexample :
    user_c4.calendar_sync_enabled = true ∧
    task_c4.google_event_id = some "evt1" ∧
    db_c4.tasks.find? (fun t => t.id == 1) = some task_c4 ∧
    task_c4.user_id = user_c4.id ∧
    (delete_task db_c4 user_c4 none 1).trace = [CalAction.local_delete 1] ∧
    (delete_task db_c4 user_c4 none 1).db.tasks = [] := by decide

/-- Claim C4 (amended): for a delete of an owned task, when additionally a
calendar service connection is obtained, remote deletion of the task's
event is attempted before the local deletion; and in every case — service
unavailable, remote deletion failing, or the remote event already missing —
the local Task row is deleted and the handler redirects normally. -/
theorem c4_delete_task :
    ∀ (db : DB) (user : User) (svc? : Option CalService) (task_id : Nat)
      (task : Task),
      db.tasks.find? (fun t => t.id == task_id) = some task →
      task.user_id = user.id →
      ((∀ (s : CalService) (eid : String),
          svc? = some s → task.google_event_id = some eid →
          user.calendar_sync_enabled = true →
          (delete_task db user svc? task_id).trace =
            [CalAction.remote_delete eid, CalAction.local_delete task_id] ∧
          (delete_task db user svc? task_id).svc =
            some (delete_calendar_event s eid).2) ∧
        (delete_task db user svc? task_id).db.tasks =
          db.tasks.filter (fun t => !(t.id == task_id)) ∧
        (delete_task db user svc? task_id).resp =
          Response.redirect "main.tasks") := by
  intro db user svc? task_id task hfind hown
  have hne : ¬ (task.user_id ≠ user.id) := by simp [hown]
  refine ⟨?_, ?_, ?_⟩
  · intro s eid hs heid hsync
    subst hs
    simp only [delete_task, hfind]
    rw [if_neg hne, heid, hsync]
    exact ⟨rfl, rfl⟩
  · simp only [delete_task, hfind]
    rw [if_neg hne]
  · simp only [delete_task, hfind]
    rw [if_neg hne]

/-- Claim C4 witness: with a working service connection, the remote delete
happens before the local delete and the row is gone. -/
theorem c4_delete_task_witness :
    (delete_task db_c4 user_c4 (some svc_c4) 1).trace =
      [CalAction.remote_delete "evt1", CalAction.local_delete 1] ∧
    (delete_task db_c4 user_c4 (some svc_c4) 1).db.tasks = [] := by
  have h := c4_delete_task db_c4 user_c4 (some svc_c4) 1 task_c4
    (by decide) (by decide)
  exact ⟨(h.1 svc_c4 "evt1" rfl (by decide) (by decide)).1,
    (h.2.1).trans (by decide)⟩

/-- Claim C5: `create_calendar_event` produces an event spanning exactly one
hour from the task's due date (or from one day after the current time when
there is none) and returns the id the service assigned to it. -/
theorem c5_create_calendar_event :
    ∀ (svc : CalService) (task : Task) (now : Int),
      svc.insert_fails = false →
      ((∀ D : Int, task.due_date = some D →
          create_calendar_event svc task now =
            (some svc.next_id, { svc with events := svc.events ++
              [{ id := svc.next_id
                 summary := task.title
                 description := py_or task.description "No description provided"
                 start_dt := D
                 end_dt := D + 60
                 extra := reminders_extra }] })) ∧
        (task.due_date = none →
          create_calendar_event svc task now =
            (some svc.next_id, { svc with events := svc.events ++
              [{ id := svc.next_id
                 summary := task.title
                 description := py_or task.description "No description provided"
                 start_dt := now + 1440
                 end_dt := now + 1440 + 60
                 extra := reminders_extra }] }))) := by
  intro svc task now hins
  constructor
  · intro D hdue
    simp only [create_calendar_event, hdue]
    rw [hins]
    rfl
  · intro hdue
    simp only [create_calendar_event, hdue]
    rw [hins]
    rfl

/-- Claim C5 witness: both cases at a concrete service and tasks. -/
theorem c5_create_calendar_event_witness :
    create_calendar_event svc_c5 task_c5 0 =
      (some "gid1", { svc_c5 with events :=
        [{ id := "gid1"
           summary := "Essay"
           description := "No description provided"
           start_dt := 300
           end_dt := 360
           extra := reminders_extra }] }) ∧
    create_calendar_event svc_c5 task_c5n 0 =
      (some "gid1", { svc_c5 with events :=
        [{ id := "gid1"
           summary := "Essay"
           description := "No description provided"
           start_dt := 1440
           end_dt := 1500
           extra := reminders_extra }] }) := by
  have h1 := c5_create_calendar_event svc_c5 task_c5 0 rfl
  have h2 := c5_create_calendar_event svc_c5 task_c5n 0 rfl
  exact ⟨(h1.1 300 rfl).trans (by decide), (h2.2 rfl).trans (by decide)⟩

/-- Claim C6 counterexample: updating a synced task overwrites the remote
event's description — a field other than the summary and the time window —
so the claim's frame condition fails: the stored description changes from
`orig-notes` to `new notes`. -/
theorem c6_counterexample :
    ev_c6.description = "orig-notes" ∧
    svc_c6.events.find? (fun e => e.id == "e1") = some ev_c6 ∧
    (update_calendar_event svc_c6 "e1" task_c6).1 = true ∧
    (update_calendar_event svc_c6 "e1" task_c6).2.events.map
        (fun e => e.description) = ["new notes"] ∧
    ¬ ("new notes" = "orig-notes") := by decide

/-- Claim C6 (amended): a successful `update_calendar_event` with a new due
date replaces the fetched event's window with the one-hour span from the
new date and overwrites its summary and description; every other remote
field (the id and everything in `extra`) is carried over unchanged from the
fetched event. -/
theorem c6_update_calendar_event :
    ∀ (svc : CalService) (event_id : String) (task : Task)
      (ev : RemoteEvent) (D : Int),
      svc.get_fails = false → svc.update_fails = false →
      svc.events.find? (fun e => e.id == event_id) = some ev →
      task.due_date = some D →
      (update_calendar_event svc event_id task =
        (true, { svc with events := svc.events.map (fun e =>
          if e.id == event_id then
            { ev with
              summary := task.title
              description := py_or task.description "No description provided"
              start_dt := D
              end_dt := D + 60 }
          else e) }) ∧
      (update_calendar_event svc event_id task).2.events.find?
          (fun e => e.id == event_id) =
        some { ev with
          summary := task.title
          description := py_or task.description "No description provided"
          start_dt := D
          end_dt := D + 60 }) := by
  intro svc event_id task ev D hget hupd hfind hdue
  have hg : (fun e => e.id == event_id)
      ({ ev with
        summary := task.title
        description := py_or task.description "No description provided"
        start_dt := D
        end_dt := D + 60 } : RemoteEvent) = true := by
    simpa using List.find?_some hfind
  have hmain : update_calendar_event svc event_id task =
      (true, { svc with events := svc.events.map (fun e =>
        if e.id == event_id then
          { ev with
            summary := task.title
            description := py_or task.description "No description provided"
            start_dt := D
            end_dt := D + 60 }
        else e) }) := by
    simp only [update_calendar_event, hfind, hdue]
    rw [hget, hupd]
    rfl
  refine ⟨hmain, ?_⟩
  rw [hmain]
  exact find?_map_ite (fun e => e.id == event_id)
    (fun _ => { ev with
      summary := task.title
      description := py_or task.description "No description provided"
      start_dt := D
      end_dt := D + 60 })
    ev svc.events hfind hg

/-- Claim C6 witness: the concrete update, with `extra` preserved. -/
theorem c6_update_calendar_event_witness :
    update_calendar_event svc_c6 "e1" task_c6 =
      (true, { svc_c6 with events :=
        [{ id := "e1"
           summary := "New title"
           description := "new notes"
           start_dt := 500
           end_dt := 560
           extra := [("location", "Library")] }] }) := by
  have h := c6_update_calendar_event svc_c6 "e1" task_c6 ev_c6 500
    rfl rfl (by decide) rfl
  exact h.1.trans (by decide)

/-- Claim C8 counterexample: `edit_task` performs a remote calendar call
whose update fails, yet the request completes with a success flash, the
user's sync flag stays enabled and no warning is shown — contradicting the
claim that every such failure is surfaced by disabling the flag with a
warning. -/
theorem c8_counterexample :
    svc_c8.update_fails = true ∧
    user_c8.calendar_sync_enabled = true ∧
    task_c8.google_event_id = some "e3" ∧
    edit_task db_c8 user_c8 (some svc_c8) 3 form_c8 = Except.ok c8_expected ∧
    c8_expected.user.calendar_sync_enabled = true ∧
    c8_expected.flashes = [("Your task has been updated!", "success")] := by
  decide

/-- Claim C8 (amended): a failing remote calendar call is never fatal to the
surrounding request — `edit_task` completes with its normal success flash
and leaves the acting user's row (hence the sync flag) unchanged regardless
of the remote outcome, while only the `schedule` view surfaces a raised
fetch failure by clearing the token, disabling the sync flag and flashing a
warning. -/
theorem c8_failure_handling :
    (∀ (db : DB) (user : User) (svc : CalService) (task_id : Nat)
        (task : Task) (f : TaskFormData),
        db.tasks.find? (fun t => t.id == task_id) = some task →
        task.user_id = user.id →
        task_form_validates f = true →
        (py_strip f.other_category != "") = true →
        edit_ok_user (edit_task db user (some svc) task_id f) = some user ∧
        edit_ok_flashes (edit_task db user (some svc) task_id f) =
          some [("Your task has been updated!", "success")]) ∧
    (∀ (db : DB) (user : User) (svc : CalService) (now : Int),
        user.calendar_sync_enabled = true →
        svc.week_fails = true →
        sched_ok_user (schedule db user (some svc) now) =
          some { user with google_token := none, calendar_sync_enabled := false } ∧
        sched_ok_connected (schedule db user (some svc) now) = some false ∧
        sched_ok_flashes (schedule db user (some svc) now) =
          some [("Your Google Calendar connection has expired. Please reconnect.",
            "warning")]) := by
  constructor
  · intro db user svc task_id task f hfind hown hval hother
    have hne : ¬ (task.user_id ≠ user.id) := by simp [hown]
    have hvalneg : (!(task_form_validates f)) = false := by rw [hval]; rfl
    simp only [edit_task, hfind]
    rw [if_neg hne, hvalneg, hother]
    exact ⟨rfl, rfl⟩
  · intro db user svc now hsync hweek
    have h1 : get_week_events svc now =
        Except.error (PyErr.http_error "week fetch failed") := by
      unfold get_week_events
      rw [hweek]
      rfl
    have hall : (([] : List PyEvent) ++
        ((db.tasks.filter (fun t => t.user_id == user.id)).filter
          (fun t => match t.due_date with
            | some d => decide (now ≤ d) && decide (d ≤ now + 10080)
            | none => false)).map task_to_py).all
        (fun e => start_is_text e.start) = true := by
      rw [List.nil_append]
      exact all_text_task_events _
    have hsorted := py_sort_events_ok _ hall
    simp only [schedule, hsync, h1, if_true]
    rw [hsorted]
    exact ⟨rfl, rfl, rfl⟩

/-- Claim C8 witness: both amended branches at concrete inputs. -/
theorem c8_failure_handling_witness :
    edit_ok_user (edit_task db_c8 user_c8 (some svc_c8) 3 form_c8) =
      some user_c8 ∧
    edit_ok_flashes (edit_task db_c8 user_c8 (some svc_c8) 3 form_c8) =
      some [("Your task has been updated!", "success")] ∧
    sched_ok_user (schedule db_c8 user_c8 (some svc_c8w) 0) =
      some { user_c8 with google_token := none, calendar_sync_enabled := false } ∧
    sched_ok_connected (schedule db_c8 user_c8 (some svc_c8w) 0) = some false ∧
    sched_ok_flashes (schedule db_c8 user_c8 (some svc_c8w) 0) =
      some [("Your Google Calendar connection has expired. Please reconnect.",
        "warning")] := by
  obtain ⟨h1, h2⟩ := c8_failure_handling
  have a := h1 db_c8 user_c8 svc_c8 3 task_c8 form_c8
    (by decide) (by decide) (by decide) (by decide)
  have b := h2 db_c8 user_c8 svc_c8w 0 (by decide) (by decide)
  exact ⟨a.1, a.2, b.1, b.2.1, b.2.2⟩

/-- Claim C10: every task operation preserves the invariant that a task's
sync flag is set exactly when its remote event id is stored: a newly
constructed row has the flag unset and no id, `sync_task_to_calendar` sets
both together on a successful create, `remove_task_from_calendar` clears
both together, and no operation (status update, completion toggle, edit,
delete, add) sets one without the other. -/
theorem c10_sync_invariant :
    ∀ (db : DB) (user : User) (svc? : Option CalService) (task_id : Nat)
      (status : String) (f : TaskFormData) (now : Int),
      db_sync_inv db →
      ((∀ (i : Nat) (ti de : String) (dd : Option Int) (ci : Option Nat)
          (ui : Nat), sync_inv (Task.new i ti de dd ci ui)) ∧
        db_sync_inv (update_task_status db user task_id status).1 ∧
        db_sync_inv (complete_task db user task_id).1 ∧
        (∀ r, edit_task db user svc? task_id f = Except.ok r →
          db_sync_inv r.db) ∧
        db_sync_inv (delete_task db user svc? task_id).db ∧
        (∀ out, add_task db user f = Except.ok out → db_sync_inv out.1) ∧
        db_sync_inv (sync_task_to_calendar db user svc? task_id now).1 ∧
        db_sync_inv (remove_task_from_calendar db user svc? task_id).1) := by
  intro db user svc? task_id status f now h
  refine ⟨?_, ?_, ?_, ?_, ?_, ?_, ?_, ?_⟩
  · intro i ti de dd ci ui
    exact rfl
  · cases hfind : db.tasks.find? (fun t => t.id == task_id) with
    | none => simp only [update_task_status, hfind]; exact h
    | some task =>
      simp only [update_task_status, hfind]
      split
      · exact h
      · split
        · exact h
        · exact mem_map_ite _ _ sync_inv db.tasks h (fun t ht => h t ht)
  · cases hfind : db.tasks.find? (fun t => t.id == task_id) with
    | none => simp only [complete_task, hfind]; exact h
    | some task =>
      simp only [complete_task, hfind]
      split
      · exact h
      · exact mem_map_ite _ _ sync_inv db.tasks h (fun t ht => h t ht)
  · intro r hr
    cases hfind : db.tasks.find? (fun t => t.id == task_id) with
    | none =>
      simp only [edit_task, hfind] at hr
      injection hr with h2
      subst h2
      exact h
    | some task =>
      simp only [edit_task, hfind] at hr
      split at hr
      · injection hr with h2; subst h2; exact h
      · split at hr
        · injection hr with h2; subst h2; exact h
        · split at hr
          · injection hr with h2
            subst h2
            exact mem_map_ite _ _ sync_inv db.tasks h
              (fun t ht => h task (List.mem_of_find?_eq_some hfind))
          · split at hr
            · exact Except.noConfusion hr
            · injection hr with h2
              subst h2
              exact mem_map_ite _ _ sync_inv db.tasks h
                (fun t ht => h task (List.mem_of_find?_eq_some hfind))
  · cases hfind : db.tasks.find? (fun t => t.id == task_id) with
    | none => simp only [delete_task, hfind]; exact h
    | some task =>
      simp only [delete_task, hfind]
      split
      · exact h
      · exact mem_filter_pred _ sync_inv db.tasks h
  · intro out hout
    simp only [add_task] at hout
    split at hout
    · injection hout with h2; subst h2; exact h
    · split at hout
      · exact Except.noConfusion hout
      · split at hout
        · exact Except.noConfusion hout
        · exact Except.noConfusion hout
  · cases hfind : db.tasks.find? (fun t => t.id == task_id) with
    | none => simp only [sync_task_to_calendar, hfind]; exact h
    | some task =>
      simp only [sync_task_to_calendar, hfind]
      split
      · exact h
      · split
        · exact h
        · split
          · exact h
          · split
            · split
              · exact h
              · exact h
            · split
              · exact mem_map_ite _ _ sync_inv db.tasks h (fun t ht => rfl)
              · exact h
  · cases hfind : db.tasks.find? (fun t => t.id == task_id) with
    | none => simp only [remove_task_from_calendar, hfind]; exact h
    | some task =>
      simp only [remove_task_from_calendar, hfind]
      split
      · exact h
      · split
        · exact h
        · split
          · exact h
          · split
            · exact mem_map_ite _ _ sync_inv db.tasks h (fun t ht => rfl)
            · exact h

/-- Claim C10 witness: the invariant holds after concrete operations on a
store that satisfies it, and on a freshly constructed row. -/
theorem c10_sync_invariant_witness :
    sync_inv (Task.new 9 "T" "" none none 1) ∧
    db_sync_inv (update_task_status db_c10 user_c10 1 "done").1 ∧
    db_sync_inv (sync_task_to_calendar db_c10 user_c10 (some svc_c10) 1 0).1 ∧
    db_sync_inv (remove_task_from_calendar db_c10 user_c10 (some svc_c10) 1).1 := by
  have h := c10_sync_invariant db_c10 user_c10 (some svc_c10) 1 "done"
    (⟨"T", "", none, "Study", ""⟩ : TaskFormData) 0 (by decide)
  obtain ⟨a, b, _, _, _, _, g1, i1⟩ := h
  exact ⟨a 9 "T" "" none none 1, b, g1, i1⟩

end StudyPlanner
